import Mathlib

/-!
A shallow embedding of the console-based personal library manager
(`library_management.py`).  The SQLite-backed `LibraryManager` class is
modelled as pure functions over an explicit database state: the `books`
table becomes a list of rows and the `AUTOINCREMENT` id counter becomes an
explicit `nextId` field.  Each method of the class is translated into a
function returning its result together with the successor state as observed
by later operations on the same connection.
-/

namespace LibraryModel

/-- One row of the `books` table.  The schema declares
`id INTEGER PRIMARY KEY AUTOINCREMENT`, `title TEXT NOT NULL`,
`author TEXT NOT NULL`, `publication_year INTEGER`, `genre TEXT`,
`read_status BOOLEAN`, `added_date TEXT`; `publication_year` is nullable,
so it is an `Option Int`. -/
structure Book where
  id : Nat
  title : String
  author : String
  publication_year : Option Int
  genre : String
  read_status : Bool
  added_date : String
  deriving DecidableEq, Repr

/-- The state of the sqlite connection as seen by operations of the manager:
the rows of the `books` table (in rowid order) and the next id the
`AUTOINCREMENT` column will assign.  Deleting rows never lowers `nextId`. -/
structure DB where
  books : List Book
  nextId : Nat
  deriving DecidableEq, Repr

/-- The state right after `setup_db` on a fresh database: no rows, first
assigned rowid is 1. -/
def initDB : DB := { books := [], nextId := 1 }

/-- A clock reading, standing for `datetime.datetime.now()`. -/
structure Timestamp where
  year : Nat
  month : Nat
  day : Nat
  hour : Nat
  minute : Nat
  second : Nat
  deriving DecidableEq, Repr

/-- Zero-pad a number to two digits, as `strftime` does for `%m %d %H %M %S`. -/
def pad2 (n : Nat) : String := if n < 10 then "0" ++ toString n else toString n

/-- Render `%Y-%m-%d %H:%M:%S`, the format used for `added_date`. -/
def formatTimestamp (t : Timestamp) : String :=
  toString t.year ++ "-" ++ pad2 t.month ++ "-" ++ pad2 t.day ++ " " ++
    pad2 t.hour ++ ":" ++ pad2 t.minute ++ ":" ++ pad2 t.second

/-- The genre list offered by `get_genre_selection` (exactly as in the
source, including the misspelt "Codding"). -/
def genreList : List String :=
  ["Fiction", "Non-Fiction", "Science Fiction", "Fantasy",
   "Mystery", "AI", "Codding", "Biography",
   "History", "Self-Help", "Poetry", "Science",
   "Philosophy", "Religion", "Art", "Other"]

/-- Byte/codepoint lexicographic comparison of character lists; on UTF-8
text this is the order sqlite's BINARY collation gives `ORDER BY title`. -/
def lexLe : List Char → List Char → Bool
  | [], _ => true
  | _ :: _, [] => false
  | a :: as, b :: bs =>
    if a.toNat < b.toNat then true
    else if b.toNat < a.toNat then false
    else lexLe as bs

/-- String comparison used for `ORDER BY title`. -/
def strLe (a b : String) : Bool := lexLe a.data b.data

/-- Ordering of rows by title, as a proposition for `insertionSort`. -/
def titleLe (a b : Book) : Prop := strLe a.title b.title = true

instance : DecidableRel titleLe := fun a b =>
  instDecidableEqBool (strLe a.title b.title) true

/-- `view_all_books`: `SELECT * FROM books ORDER BY title`.  The rows are
returned sorted by title (the tabulated display is a field-for-field image
of this list). -/
def view_all_books (db : DB) : List Book :=
  List.insertionSort titleLe db.books

/-- `add_book`: stamps the current time, inserts a new row (sqlite assigns
the next id), commits, and returns `True`.  Storage faults are outside the
model, so the failure branch does not occur. -/
def add_book (db : DB) (title author : String) (publication_year : Int)
    (genre : String) (read_status : Bool) (now : Timestamp) : Bool × DB :=
  let added_date := formatTimestamp now
  (true,
   { books := db.books ++
      [{ id := db.nextId, title := title, author := author,
         publication_year := some publication_year, genre := genre,
         read_status := read_status, added_date := added_date }],
     nextId := db.nextId + 1 })

/-- `remove_book`: `SELECT title FROM books WHERE id = ?`; if no row is
found, return `False` (`none`) and change nothing; otherwise `DELETE FROM
books WHERE id = ?`, commit, and report the fetched title (`some title`,
the source's `True` branch). -/
def remove_book (db : DB) (book_id : Nat) : Option String × DB :=
  match db.books.find? (fun b => b.id == book_id) with
  | none => (none, db)
  | some b =>
    (some b.title,
     { db with books := db.books.filter (fun c => !(c.id == book_id)) })

/-- The row transformation of `UPDATE books SET read_status = ? WHERE
id = ?`: rows with the id get the new status, the rest are untouched. -/
def setStatus (book_id : Nat) (new_status : Bool) (c : Book) : Book :=
  if c.id == book_id then { c with read_status := new_status } else c

/-- `update_read_status`: fetch `title, read_status` for the id; if absent
return `False` and change nothing; otherwise set `read_status` of the rows
with that id to the negation of the fetched status and commit. -/
def update_read_status (db : DB) (book_id : Nat) : Bool × DB :=
  match db.books.find? (fun b => b.id == book_id) with
  | none => (false, db)
  | some b =>
    let new_status := !b.read_status
    (true, { db with books := db.books.map (setStatus book_id new_status) })

/-- The three column names the shell can pass as `search_by`. -/
inductive SearchField where
  | title
  | author
  | genre
  deriving DecidableEq, Repr

/-- The column a `SearchField` selects. -/
def fieldValue : SearchField → Book → String
  | SearchField.title, b => b.title
  | SearchField.author, b => b.author
  | SearchField.genre, b => b.genre

/-- ASCII case folding: sqlite's `LIKE` folds only the letters A-Z. -/
def lowerNat (n : Nat) : Nat := if 65 ≤ n ∧ n ≤ 90 then n + 32 else n

/-- Scan every suffix of the string with the continuation `f` — the
semantics of a `%` wildcard, which may consume any prefix. -/
def starScan (f : List Char → Bool) : List Char → Bool
  | [] => f []
  | c :: s2 => f (c :: s2) || starScan f s2

/-- Sqlite `LIKE` pattern matching (no ESCAPE clause): `%` matches any
sequence, `_` matches any single character, any other pattern character
matches a single character equal to it up to ASCII case.  Defined by
primitive recursion on the pattern so that it evaluates by kernel
reduction. -/
def likeMatch (p : List Char) : List Char → Bool :=
  p.rec (motive := fun _ => List Char → Bool)
    (fun s => s.isEmpty)
    (fun q _ ih => fun s =>
      if q = '%' then starScan ih s
      else
        match s with
        | [] => false
        | c :: s2 =>
          (if q = '_' then true else lowerNat q.toNat == lowerNat c.toNat) && ih s2)

/-- ASCII-case-folded code of a character, the unit of `LIKE`
comparison. -/
def foldChar (c : Char) : Nat := lowerNat c.toNat

/-- The claim's matching predicate: the string holds the term as a
contiguous substring, compared up to ASCII case. -/
def containsCI (term s : String) : Prop :=
  ∃ pre mid post, s.data = pre ++ mid ++ post ∧
    mid.map foldChar = term.data.map foldChar

/-- `search_books`: `SELECT * FROM books WHERE {column} LIKE ? ORDER BY
title` with the bound pattern `f"%{search_term}%"`: keep the rows whose
selected column matches the pattern, sorted by title. -/
def search_books (db : DB) (search_term : String) (search_by : SearchField) : List Book :=
  List.insertionSort titleLe
    (db.books.filter (fun b =>
      likeMatch ('%' :: search_term.data ++ ['%']) (fieldValue search_by b).data))

/-- Sqlite integer division truncates toward zero, so
`(publication_year / 10) * 10` is `tdiv`; a NULL year yields a NULL
decade. -/
def decadeOf (b : Book) : Option Int :=
  b.publication_year.map (fun y => Int.tdiv y 10 * 10)

/-- `ORDER BY decade` ascending over nullable integers: NULL sorts before
every value. -/
def optLe (a b : Option Int) : Prop :=
  match a, b with
  | none, _ => True
  | some _, none => False
  | some x, some y => x ≤ y

instance : DecidableRel optLe := fun a b =>
  match a, b with
  | none, _ => Decidable.isTrue trivial
  | some _, none => Decidable.isFalse (fun h => h)
  | some x, some y => (inferInstance : Decidable (x ≤ y))

/-- The distinct decade keys of the catalog (`GROUP BY decade`), in
ascending order with NULL first (`ORDER BY decade`). -/
def decadeKeys (db : DB) : List (Option Int) :=
  List.insertionSort optLe (db.books.map decadeOf).dedup

/-- The grouped decade counts `SELECT (publication_year / 10) * 10 as
decade, COUNT(*) ... GROUP BY decade ORDER BY decade`. -/
def decadeRows (db : DB) : List (Option Int × Nat) :=
  (decadeKeys db).map (fun d => (d, db.books.countP (fun b => decadeOf b == d)))

/-- The decade lines actually printed: the display loop skips the row whose
decade is `None`. -/
def decadesShown (db : DB) : List (Int × Nat) :=
  (decadeRows db).filterMap (fun r => r.1.map (fun d => (d, r.2)))

/-- The claim's specification of a decade's population: the number of
books whose publication year, when present, satisfies
`floor(publication_year / 10) * 10 = d`; books with a missing year never
count. -/
def floorDecadeCount (db : DB) (d : Int) : Nat :=
  db.books.countP (fun b =>
    match b.publication_year with
    | some y => Int.fdiv y 10 * 10 == d
    | none => false)

/-- Descending-by-count order for the genre/author histograms
(`ORDER BY count DESC`; tie order unspecified in SQL, realized stably). -/
def countGe (a b : String × Nat) : Prop := b.2 ≤ a.2

instance : DecidableRel countGe := fun a b => (inferInstance : Decidable (b.2 ≤ a.2))

/-- `SELECT key, COUNT(*) FROM books GROUP BY key ORDER BY count DESC`. -/
def groupCounts (key : Book → String) (db : DB) : List (String × Nat) :=
  List.insertionSort countGe
    ((db.books.map key).dedup.map (fun k => (k, db.books.countP (fun b => key b == k))))

/-- The quantities `get_statistics` computes and prints for a non-empty
catalog. -/
structure Stats where
  total_books : Nat
  read_books : Nat
  percent_read : ℚ
  genres : List (String × Nat)
  authors : List (String × Nat)
  decades : List (Option Int × Nat)
  deriving DecidableEq, Repr

/-- `get_statistics`: on an empty table it prints the distinct
empty-library message and returns before any further query or division
(`none`); otherwise it computes the counts, the percentage
`read_books / total_books * 100`, and the three histograms (`genres` and
`authors` are displayed truncated to their first five rows). -/
def get_statistics (db : DB) : Option Stats :=
  let total_books := db.books.length
  if total_books == 0 then none
  else
    let read_books := (db.books.filter (fun b => b.read_status)).length
    some
      { total_books := total_books
        read_books := read_books
        percent_read := (read_books : ℚ) / (total_books : ℚ) * 100
        genres := groupCounts Book.genre db
        authors := groupCounts Book.author db
        decades := decadeRows db }

/-- One record of the export/import JSON file.  JSON objects may omit keys,
so every field is optional; `publication_year_field` additionally
distinguishes a key whose value is `null` (`some none`) from a missing key
(`none`). -/
structure BookRecord where
  id_field : Option Int
  title_field : Option String
  author_field : Option String
  publication_year_field : Option (Option Int)
  genre_field : Option String
  read_status_field : Option Bool
  added_date_field : Option String
  deriving DecidableEq, Repr

/-- The record `export_library` writes for a row. -/
def toRecord (b : Book) : BookRecord :=
  { id_field := some (b.id : Int)
    title_field := some b.title
    author_field := some b.author
    publication_year_field := some b.publication_year
    genre_field := some b.genre
    read_status_field := some b.read_status
    added_date_field := some b.added_date }

/-- `export_library`: `SELECT * FROM books`; if there are no rows, report
"nothing to export" and return `False`; otherwise write the list of
records (in table order) and return `True`. -/
def export_library (db : DB) : Bool × Option (List BookRecord) :=
  if db.books.isEmpty then (false, none)
  else (true, some (db.books.map toRecord))

/-- The `for book in books:` insert loop of `import_library`.  Each record
is inserted with a fresh id; accessing a missing key (`book['title']`,
`book['author']`, `book['publication_year']`, `book['genre']`,
`book['read_status']`, `book['added_date']`) raises `KeyError`, which the
surrounding handler turns into `False` — leaving the rows inserted so far
in the session. -/
def insertAll (db : DB) : List BookRecord → Bool × DB
  | [] => (true, db)
  | r :: rs =>
    match r.title_field, r.author_field, r.publication_year_field,
        r.genre_field, r.read_status_field, r.added_date_field with
    | some t, some a, some y, some g, some st, some d =>
      insertAll
        { books := db.books ++
            [{ id := db.nextId, title := t, author := a,
               publication_year := y, genre := g,
               read_status := st, added_date := d }],
          nextId := db.nextId + 1 } rs
    | _, _, _, _, _, _ => (false, db)

/-- Python's `confirm.lower() != 'y'` cancellation test: the signal is
affirmative exactly when the lower-cased input is the single letter y. -/
def isAffirmative (confirm : String) : Bool :=
  confirm.data.map Char.toLower == ['y']

/-- `import_library`: `none` for the file stands for `os.path.exists`
failing.  Fail (unchanged) if the file is missing, if it holds no records,
or if the confirmation answer is not affirmative; otherwise `DELETE FROM
books` and insert the records one by one.  The commit only happens after a
fully successful loop, but the deletion and the partial inserts stay in
the connection's open transaction either way, so the state seen by every
later operation is the one `insertAll` returns. -/
def import_library (db : DB) (file : Option (List BookRecord)) (confirm : String) :
    Bool × DB :=
  match file with
  | none => (false, db)
  | some books =>
    if books.isEmpty then (false, db)
    else if !(isAffirmative confirm) then (false, db)
    else insertAll { db with books := [] } books

/-- The id-free content of a row: the tuple the round-trip property
compares. -/
def bookTuple (b : Book) : String × String × Option Int × String × Bool × String :=
  (b.title, b.author, b.publication_year, b.genre, b.read_status, b.added_date)

/-- Well-formedness the sqlite `PRIMARY KEY AUTOINCREMENT` column
guarantees: every id is below the next assigned one, and ids are pairwise
distinct. -/
def WF (db : DB) : Prop :=
  (∀ b ∈ db.books, b.id < db.nextId) ∧ (db.books.map Book.id).Nodup

/-! ## Order facts for the sort relations -/

theorem lexLe_total : ∀ as bs : List Char, lexLe as bs = true ∨ lexLe bs as = true := by
  intro as
  induction as with
  | nil => intro bs; exact Or.inl rfl
  | cons a as ih =>
    intro bs
    cases bs with
    | nil => exact Or.inr rfl
    | cons b bs =>
      rcases Nat.lt_trichotomy a.toNat b.toNat with h | h | h
      · left; simp [lexLe, h]
      · rcases ih bs with h2 | h2
        · left; simp [lexLe, h, h2]
        · right; simp [lexLe, h.symm, h2]
      · right; simp [lexLe, h]

theorem lexLe_trans :
    ∀ as bs cs : List Char, lexLe as bs = true → lexLe bs cs = true →
      lexLe as cs = true := by
  intro as
  induction as with
  | nil => intro bs cs _ _; rfl
  | cons a as ih =>
    intro bs cs h1 h2
    cases bs with
    | nil => simp [lexLe] at h1
    | cons b bs =>
      cases cs with
      | nil => simp [lexLe] at h2
      | cons c cs =>
        rcases Nat.lt_trichotomy a.toNat b.toNat with hab | hab | hab <;>
          rcases Nat.lt_trichotomy b.toNat c.toNat with hbc | hbc | hbc
        · have hac : a.toNat < c.toNat := by omega
          simp [lexLe, hac]
        · have hac : a.toNat < c.toNat := by omega
          simp [lexLe, hac]
        · simp [lexLe, Nat.lt_asymm hbc, hbc] at h2
        · have hac : a.toNat < c.toNat := by omega
          simp [lexLe, hac]
        · have h1' : lexLe as bs = true := by
            simpa [lexLe, hab, Nat.lt_irrefl] using h1
          have h2' : lexLe bs cs = true := by
            simpa [lexLe, hbc, Nat.lt_irrefl] using h2
          have hac : a.toNat = c.toNat := hab.trans hbc
          simp [lexLe, hac, Nat.lt_irrefl, ih _ _ h1' h2']
        · simp [lexLe, Nat.lt_asymm hbc, hbc] at h2
        · simp [lexLe, Nat.lt_asymm hab, hab] at h1
        · simp [lexLe, Nat.lt_asymm hab, hab] at h1
        · simp [lexLe, Nat.lt_asymm hab, hab] at h1

instance : IsTotal Book titleLe :=
  ⟨fun a b => lexLe_total a.title.data b.title.data⟩

instance : IsTrans Book titleLe :=
  ⟨fun _ _ _ h1 h2 => lexLe_trans _ _ _ h1 h2⟩

instance : IsTotal (Option Int) optLe := by
  constructor
  intro a b
  cases a <;> cases b <;> simp [optLe] <;> omega

instance : IsTrans (Option Int) optLe := by
  constructor
  intro a b c h1 h2
  cases a <;> cases b <;> cases c <;> simp [optLe] at * <;> omega

/-! ## Claims about the import/export component -/

/-- Claim C3: `import_library` returns a failure result and leaves the
catalog unchanged whenever the file does not exist, or it contains no
records, or the confirmation answer is not affirmative; and whenever the
state changes or success is reported, the file existed, was non-empty, and
the confirmation was affirmative. -/
theorem import_library_requires_checks (db : DB) (file : Option (List BookRecord))
    (confirm : String) :
    (file = none ∨ file = some [] ∨ isAffirmative confirm = false →
      import_library db file confirm = (false, db)) ∧
    ((import_library db file confirm).2 ≠ db ∨
        (import_library db file confirm).1 = true →
      ∃ recs, file = some recs ∧ recs ≠ [] ∧ isAffirmative confirm = true) := by
  constructor
  · rintro (h | h | h)
    · rw [h]; rfl
    · rw [h]; rfl
    · cases file with
      | none => rfl
      | some recs =>
        simp only [import_library, h]
        split
        · rfl
        · rfl
  · intro h
    cases file with
    | none => simp [import_library] at h
    | some recs =>
      refine ⟨recs, rfl, ?_, ?_⟩
      · intro hnil
        subst hnil
        simp [import_library] at h
      · by_contra hneg
        have hfalse : isAffirmative confirm = false := by
          revert hneg; cases isAffirmative confirm <;> simp
        have hempty : recs.isEmpty = false := by
          cases hr : recs with
          | nil =>
            subst hr
            simp [import_library] at h
          | cons x xs => rfl
        simp [import_library, hfalse, hempty] at h

/-- Claim C3 witness: a missing file on a concrete state. -/
theorem import_library_requires_checks_witness :
    import_library { books := [], nextId := 1 } none "y" =
      (false, { books := [], nextId := 1 }) :=
  (import_library_requires_checks { books := [], nextId := 1 } none "y").1
    (Or.inl rfl)

/-- Claim C1: the code does not satisfy it.  With one book in the catalog
and an import file of two records whose second record lacks the `title`
key, the existence, non-emptiness and confirmation checks all pass, the
loop deletes the catalog and inserts the first record, and the `KeyError`
on the second record aborts with `False` — but the state every later
operation on the connection observes (and the next commit persists) is the
partially applied import, not the original catalog. -/
theorem import_library_partial_apply_bug :
    import_library
        { books := [{ id := 1, title := "Dune", author := "Herbert",
                      publication_year := some 1965, genre := "Science Fiction",
                      read_status := false,
                      added_date := "2024-01-01 10:00:00" }],
          nextId := 2 }
        (some
          [{ id_field := some 7, title_field := some "A", author_field := some "B",
             publication_year_field := some (some 2000), genre_field := some "Other",
             read_status_field := some true, added_date_field := some "d" },
           { id_field := some 8, title_field := none, author_field := some "B",
             publication_year_field := some (some 2000), genre_field := some "Other",
             read_status_field := some true, added_date_field := some "d" }])
        "y" =
      (false,
       { books := [{ id := 2, title := "A", author := "B",
                     publication_year := some 2000, genre := "Other",
                     read_status := true, added_date := "d" }],
         nextId := 3 }) ∧
    ({ books := [{ id := 2, title := "A", author := "B",
                   publication_year := some 2000, genre := "Other",
                   read_status := true, added_date := "d" }],
       nextId := 3 } : DB) ≠
      { books := [{ id := 1, title := "Dune", author := "Herbert",
                    publication_year := some 1965, genre := "Science Fiction",
                    read_status := false,
                    added_date := "2024-01-01 10:00:00" }],
        nextId := 2 } := by
  constructor
  · rfl
  · decide

/-- Running the insert loop on records exported from actual rows always
succeeds; it appends rows carrying the same id-free tuples, advances the
id counter by the number of records, and gives every new row a fresh id. -/
theorem insertAll_toRecord :
    ∀ (bs : List Book) (db : DB),
      (insertAll db (bs.map toRecord)).1 = true ∧
      (insertAll db (bs.map toRecord)).2.books.map bookTuple =
        db.books.map bookTuple ++ bs.map bookTuple ∧
      (insertAll db (bs.map toRecord)).2.nextId = db.nextId + bs.length ∧
      ∀ b' ∈ (insertAll db (bs.map toRecord)).2.books,
        b' ∈ db.books ∨ db.nextId ≤ b'.id := by
  intro bs
  induction bs with
  | nil =>
    intro db
    exact ⟨rfl, by simp [insertAll], rfl, fun b' hb' => Or.inl hb'⟩
  | cons b bs ih =>
    intro db
    have hstep :
        insertAll db ((b :: bs).map toRecord) =
          insertAll
            { books := db.books ++
                [{ id := db.nextId, title := b.title, author := b.author,
                   publication_year := b.publication_year, genre := b.genre,
                   read_status := b.read_status, added_date := b.added_date }],
              nextId := db.nextId + 1 } (bs.map toRecord) := rfl
    obtain ⟨hok, htup, hnext, hfresh⟩ :=
      ih { books := db.books ++
            [{ id := db.nextId, title := b.title, author := b.author,
               publication_year := b.publication_year, genre := b.genre,
               read_status := b.read_status, added_date := b.added_date }],
           nextId := db.nextId + 1 }
    refine ⟨hstep ▸ hok, ?_, ?_, ?_⟩
    · rw [hstep, htup]
      simp [bookTuple]
    · rw [hstep, hnext]
      simp [Nat.add_assoc, Nat.add_comm 1 bs.length]
    · intro b' hb'
      rw [hstep] at hb'
      rcases hfresh b' hb' with hmem | hge
      · rcases List.mem_append.mp hmem with hold | hnew
        · exact Or.inl hold
        · right
          rcases List.mem_singleton.mp hnew with rfl
          exact Nat.le_refl _
      · exact Or.inr (Nat.le_of_succ_le hge)

/-- Claim C2: exporting a non-empty catalog and importing the exported
file with an affirmative confirmation succeeds and reproduces the same
multiset of id-free tuples (title, author, publication_year, genre,
read_status, added_date); the rows come back with fresh ids assigned by
the storage counter. -/
theorem export_import_roundtrip (db : DB) (h : db.books ≠ []) :
    ∃ recs, export_library db = (true, some recs) ∧
      ∃ db2, import_library db (some recs) "y" = (true, db2) ∧
        (db2.books.map bookTuple).Perm (db.books.map bookTuple) ∧
        ∀ b' ∈ db2.books, db.nextId ≤ b'.id := by
  have hempty : db.books.isEmpty = false := by
    cases hb : db.books with
    | nil => exact absurd hb h
    | cons x xs => rfl
  refine ⟨db.books.map toRecord, ?_, ?_⟩
  · simp [export_library, hempty]
  · have hrecs : (db.books.map toRecord).isEmpty = false := by
      cases hb : db.books with
      | nil => exact absurd hb h
      | cons x xs => rfl
    obtain ⟨hok, htup, _, hfresh⟩ :=
      insertAll_toRecord db.books { books := [], nextId := db.nextId }
    refine ⟨(insertAll { books := [], nextId := db.nextId }
        (db.books.map toRecord)).2, ?_, ?_, ?_⟩
    · have : import_library db (some (db.books.map toRecord)) "y" =
          insertAll { books := [], nextId := db.nextId } (db.books.map toRecord) := by
        simp [import_library, hrecs, isAffirmative]
      rw [this]
      exact Prod.ext hok rfl
    · rw [htup]
      simp
    · intro b' hb'
      rcases hfresh b' hb' with hmem | hge
      · simp at hmem
      · exact hge

/-- Claim C2 witness: the round trip on a concrete one-book catalog. -/
theorem export_import_roundtrip_witness :
    ({ books := [{ id := 5, title := "Dune", author := "Herbert",
                   publication_year := some 1965, genre := "Science Fiction",
                   read_status := true, added_date := "2024-01-01 10:00:00" }],
       nextId := 6 } : DB).books ≠ [] ∧
    ∃ recs,
      export_library
          { books := [{ id := 5, title := "Dune", author := "Herbert",
                        publication_year := some 1965, genre := "Science Fiction",
                        read_status := true, added_date := "2024-01-01 10:00:00" }],
            nextId := 6 } = (true, some recs) ∧
      ∃ db2,
        import_library
            { books := [{ id := 5, title := "Dune", author := "Herbert",
                          publication_year := some 1965, genre := "Science Fiction",
                          read_status := true, added_date := "2024-01-01 10:00:00" }],
              nextId := 6 } (some recs) "y" = (true, db2) ∧
        (db2.books.map bookTuple).Perm
          (({ books := [{ id := 5, title := "Dune", author := "Herbert",
                          publication_year := some 1965, genre := "Science Fiction",
                          read_status := true, added_date := "2024-01-01 10:00:00" }],
              nextId := 6 } : DB).books.map bookTuple) ∧
        ∀ b' ∈ db2.books,
          ({ books := [{ id := 5, title := "Dune", author := "Herbert",
                         publication_year := some 1965, genre := "Science Fiction",
                         read_status := true, added_date := "2024-01-01 10:00:00" }],
             nextId := 6 } : DB).nextId ≤ b'.id :=
  ⟨by decide, export_import_roundtrip _ (by decide)⟩

/-! ## Statistics -/

theorem formatTimestamp_ne_empty (t : Timestamp) : formatTimestamp t ≠ "" := by
  intro h
  have hl := congrArg String.length h
  rw [formatTimestamp] at hl
  simp only [String.length_append] at hl
  have h1 : String.length "-" = 1 := rfl
  have h0 : String.length "" = 0 := rfl
  omega

/-- Claim C8: on an empty catalog the statistics operation reports the
empty case distinctly (and performs no division); on N > 0 books of which
R are read it reports `total_books = N`, `read_books = R`, and
`percent_read = R / N * 100` exactly (hence a well-defined value between 0
and 100, which the shell renders to one decimal place). -/
theorem get_statistics_spec (db : DB) :
    (db.books = [] → get_statistics db = none) ∧
    (db.books ≠ [] →
      ∃ s, get_statistics db = some s ∧
        s.total_books = db.books.length ∧
        s.read_books = (db.books.filter (fun b => b.read_status)).length ∧
        s.percent_read = (s.read_books : ℚ) / (s.total_books : ℚ) * 100 ∧
        0 ≤ s.percent_read ∧ s.percent_read ≤ 100) := by
  constructor
  · intro h; rw [show get_statistics db = get_statistics { books := [], nextId := db.nextId } by rw [show ({ books := [], nextId := db.nextId } : DB) = { books := db.books, nextId := db.nextId } by rw [h]]]; rfl
  · intro h
    have hne : db.books.length ≠ 0 := by
      cases hb : db.books with
      | nil => exact absurd hb h
      | cons x xs => simp [hb]
    have hbeq : (db.books.length == 0) = false := by
      simpa using hne
    have hstat : get_statistics db =
        some { total_books := db.books.length
               read_books := (db.books.filter (fun b => b.read_status)).length
               percent_read :=
                 ((db.books.filter (fun b => b.read_status)).length : ℚ) /
                   (db.books.length : ℚ) * 100
               genres := groupCounts Book.genre db
               authors := groupCounts Book.author db
               decades := decadeRows db } := by
      simp only [get_statistics, hbeq, Bool.false_eq_true, if_false]
    refine ⟨_, hstat, rfl, rfl, rfl, ?_, ?_⟩
    · positivity
    · have hrn : ((db.books.filter (fun b => b.read_status)).length : ℚ) ≤
          (db.books.length : ℚ) := by
        exact_mod_cast List.length_filter_le _ _
      have hn : (0 : ℚ) < (db.books.length : ℚ) := by
        exact_mod_cast Nat.pos_of_ne_zero hne
      have hdiv : ((db.books.filter (fun b => b.read_status)).length : ℚ) /
          (db.books.length : ℚ) ≤ 1 := (div_le_one hn).mpr hrn
      calc ((db.books.filter (fun b => b.read_status)).length : ℚ) /
            (db.books.length : ℚ) * 100 ≤ 1 * 100 :=
        mul_le_mul_of_nonneg_right hdiv (by norm_num)
      _ = 100 := by norm_num

/-- Claim C8 witness: two books, one read, on a concrete catalog. -/
theorem get_statistics_spec_witness :
    ({ books := [{ id := 1, title := "A", author := "x",
                   publication_year := some 1990, genre := "Other",
                   read_status := true, added_date := "d" },
                 { id := 2, title := "B", author := "x",
                   publication_year := some 2001, genre := "Other",
                   read_status := false, added_date := "d" }],
       nextId := 3 } : DB).books ≠ [] ∧
    ∃ s, get_statistics
        { books := [{ id := 1, title := "A", author := "x",
                      publication_year := some 1990, genre := "Other",
                      read_status := true, added_date := "d" },
                    { id := 2, title := "B", author := "x",
                      publication_year := some 2001, genre := "Other",
                      read_status := false, added_date := "d" }],
          nextId := 3 } = some s ∧
      s.total_books = 2 ∧ s.read_books = 1 ∧
      s.percent_read = (s.read_books : ℚ) / (s.total_books : ℚ) * 100 ∧
      0 ≤ s.percent_read ∧ s.percent_read ≤ 100 := by
  refine ⟨by decide, ?_⟩
  obtain ⟨s, hs, h1, h2, h3, h4, h5⟩ :=
    (get_statistics_spec
      { books := [{ id := 1, title := "A", author := "x",
                    publication_year := some 1990, genre := "Other",
                    read_status := true, added_date := "d" },
                  { id := 2, title := "B", author := "x",
                    publication_year := some 2001, genre := "Other",
                    read_status := false, added_date := "d" }],
        nextId := 3 }).2 (by decide)
  exact ⟨s, hs, by rw [h1]; rfl, by rw [h2]; rfl, h3, h4, h5⟩

/-! ## Adding and listing -/

/-- Appending one row and listing is, up to order, consing the row onto
the old listing. -/
theorem view_all_append_perm (db : DB) (nb : Book) :
    (view_all_books { books := db.books ++ [nb], nextId := db.nextId + 1 }).Perm
      (nb :: view_all_books db) := by
  have h1 : (view_all_books
      { books := db.books ++ [nb], nextId := db.nextId + 1 }).Perm
      (db.books ++ [nb]) := List.perm_insertionSort titleLe _
  have h2 : (db.books ++ [nb]).Perm (nb :: db.books) :=
    List.perm_append_singleton nb db.books
  have h3 : (nb :: db.books).Perm (nb :: view_all_books db) :=
    List.Perm.cons nb (List.perm_insertionSort titleLe db.books).symm
  exact (h1.trans h2).trans h3

/-- Claim C4: for valid inputs, `add_book` succeeds and the subsequent
listing is, up to order, the old listing plus exactly one new book whose
fields equal the inputs, whose id differs from every pre-existing id, and
whose `added_date` is a non-empty timestamp. -/
theorem add_book_then_view (db : DB) (t a : String) (y : Int) (g : String)
    (r : Bool) (now : Timestamp) (hWF : WF db) (ht : t ≠ "") (ha : a ≠ "")
    (hy : 1000 ≤ y ∧ y ≤ (now.year : Int)) (hg : g ∈ genreList) :
    ∃ db2, add_book db t a y g r now = (true, db2) ∧
      ∃ b, b ∈ view_all_books db2 ∧
        b.title = t ∧ b.author = a ∧ b.publication_year = some y ∧
        b.genre = g ∧ b.read_status = r ∧ b.added_date ≠ "" ∧
        (∀ c ∈ db.books, c.id ≠ b.id) ∧
        (view_all_books db2).Perm (b :: view_all_books db) := by
  refine ⟨_, rfl, ?_⟩
  refine ⟨{ id := db.nextId, title := t, author := a,
            publication_year := some y, genre := g, read_status := r,
            added_date := formatTimestamp now }, ?_, rfl, rfl, rfl, rfl, rfl,
          formatTimestamp_ne_empty now, ?_, ?_⟩
  · exact (view_all_append_perm db _).mem_iff.mpr (List.mem_cons_self _ _)
  · intro c hc
    exact Nat.ne_of_lt (hWF.1 c hc)
  · exact view_all_append_perm db _

/-- Claim C4 witness: adding "Dune" to a concrete one-book catalog. -/
theorem add_book_then_view_witness :
    WF { books := [{ id := 1, title := "Emma", author := "Austen",
                     publication_year := some 1815, genre := "Fiction",
                     read_status := false, added_date := "d" }],
         nextId := 2 } ∧
    ("Dune" : String) ≠ "" ∧ ("Herbert" : String) ≠ "" ∧
    (1000 ≤ (1965 : Int) ∧ (1965 : Int) ≤ ((2024 : Nat) : Int)) ∧
    "Science Fiction" ∈ genreList ∧
    ∃ db2,
      add_book
          { books := [{ id := 1, title := "Emma", author := "Austen",
                        publication_year := some 1815, genre := "Fiction",
                        read_status := false, added_date := "d" }],
            nextId := 2 }
          "Dune" "Herbert" 1965 "Science Fiction" false
          { year := 2024, month := 1, day := 2, hour := 3, minute := 4,
            second := 5 } = (true, db2) ∧
      ∃ b, b ∈ view_all_books db2 ∧
        b.title = "Dune" ∧ b.author = "Herbert" ∧
        b.publication_year = some 1965 ∧ b.genre = "Science Fiction" ∧
        b.read_status = false ∧ b.added_date ≠ "" ∧
        (∀ c ∈ ({ books := [{ id := 1, title := "Emma", author := "Austen",
                              publication_year := some 1815, genre := "Fiction",
                              read_status := false, added_date := "d" }],
                  nextId := 2 } : DB).books, c.id ≠ b.id) ∧
        (view_all_books db2).Perm
          (b :: view_all_books
            { books := [{ id := 1, title := "Emma", author := "Austen",
                          publication_year := some 1815, genre := "Fiction",
                          read_status := false, added_date := "d" }],
              nextId := 2 }) :=
  ⟨⟨by decide, by decide⟩, by decide, by decide, by decide, by decide,
   add_book_then_view _ "Dune" "Herbert" 1965 "Science Fiction" false
     { year := 2024, month := 1, day := 2, hour := 3, minute := 4, second := 5 }
     ⟨by decide, by decide⟩ (by decide) (by decide) (by decide) (by decide)⟩

/-! ## Removing and toggling -/

theorem mem_id_unique (l : List Book) (h : (l.map Book.id).Nodup) {b c : Book}
    (hb : b ∈ l) (hc : c ∈ l) (hid : b.id = c.id) : b = c :=
  List.inj_on_of_nodup_map h hb hc hid

/-- With pairwise-distinct ids, the `WHERE id = ?` lookup finds exactly
the member with that id. -/
theorem find?_id_eq (l : List Book) (h : (l.map Book.id).Nodup) {b : Book}
    (hb : b ∈ l) : l.find? (fun c => c.id == b.id) = some b := by
  cases hf : l.find? (fun c => c.id == b.id) with
  | none =>
    exact absurd (List.find?_eq_none.mp hf b hb) (by simp)
  | some c =>
    have hcl := List.mem_of_find?_eq_some hf
    have hcp : c.id = b.id := by simpa using List.find?_some hf
    rw [mem_id_unique l h hcl hb hcp]

/-- With pairwise-distinct ids, `DELETE ... WHERE id = ?` removes exactly
the one row with that id. -/
theorem filter_ne_id_perm_erase :
    ∀ l : List Book, (l.map Book.id).Nodup → ∀ b ∈ l,
      (l.filter (fun c => !(c.id == b.id))).Perm (l.erase b) := by
  intro l
  induction l with
  | nil => intro _ b hb; cases hb
  | cons x xs ih =>
    intro hnd b hb
    have hpair : (∀ c ∈ xs, c.id ≠ x.id) ∧ (xs.map Book.id).Nodup := by
      simpa using hnd
    have hnd' : (xs.map Book.id).Nodup := hpair.2
    rcases List.mem_cons.mp hb with heq | hbxs
    · subst heq
      have hpx : (!(b.id == b.id)) = false := by simp
      have hfx : xs.filter (fun c => !(c.id == b.id)) = xs := by
        apply List.filter_eq_self.mpr
        intro c hc
        simp [hpair.1 c hc]
      rw [List.erase_cons_head]
      simp only [List.filter_cons, hpx, Bool.false_eq_true, if_false, hfx]
      exact List.Perm.refl xs
    · have hidne : x.id ≠ b.id := fun hiq => hpair.1 b hbxs hiq.symm
      have hxb : x ≠ b := fun hxb => hidne (hxb ▸ rfl)
      have hpx : (!(x.id == b.id)) = true := by simp [hidne]
      have herase : (x :: xs).erase b = x :: xs.erase b := by
        rw [List.erase_cons_tail]
        simp [hxb]
      rw [herase]
      simp only [List.filter_cons, hpx, if_true]
      exact List.Perm.cons x (ih hnd' b hbxs)

/-- Claim C5: removing a present id deletes exactly that book and reports
its title; the listing afterwards holds exactly the other books; removing
an absent id reports not-found (`none`) and leaves the catalog entirely
unchanged. -/
theorem remove_book_spec (db : DB) (book_id : Nat) (hWF : WF db) :
    ((∀ b ∈ db.books, b.id ≠ book_id) → remove_book db book_id = (none, db)) ∧
    (∀ b ∈ db.books, b.id = book_id →
      (remove_book db book_id).1 = some b.title ∧
      b ∉ (remove_book db book_id).2.books ∧
      (∀ c, c ∈ view_all_books (remove_book db book_id).2 ↔
        c ∈ view_all_books db ∧ c.id ≠ book_id) ∧
      (view_all_books (remove_book db book_id).2).Perm
        ((view_all_books db).erase b) ∧
      (remove_book db book_id).2.nextId = db.nextId) := by
  constructor
  · intro h
    have hfind : db.books.find? (fun c => c.id == book_id) = none := by
      apply List.find?_eq_none.mpr
      intro x hx
      simp [h x hx]
    simp [remove_book, hfind]
  · intro b hb hid
    subst hid
    have hfind : db.books.find? (fun c => c.id == b.id) = some b :=
      find?_id_eq db.books hWF.2 hb
    have hrm : remove_book db b.id =
        (some b.title,
         { db with books := db.books.filter (fun c => !(c.id == b.id)) }) := by
      simp [remove_book, hfind]
    refine ⟨by rw [hrm], ?_, ?_, ?_, by rw [hrm]⟩
    · rw [hrm]
      intro hmem
      have := (List.mem_filter.mp hmem).2
      simp at this
    · intro c
      rw [hrm]
      constructor
      · intro hc
        have hc' := (List.perm_insertionSort titleLe _).mem_iff.mp hc
        have hcf := List.mem_filter.mp hc'
        refine ⟨(List.perm_insertionSort titleLe _).symm.mem_iff.mp hcf.1, ?_⟩
        simpa using hcf.2
      · rintro ⟨hc, hcne⟩
        apply (List.perm_insertionSort titleLe _).symm.mem_iff.mp
        apply List.mem_filter.mpr
        exact ⟨(List.perm_insertionSort titleLe _).mem_iff.mp hc, by simpa using hcne⟩
    · rw [hrm]
      have h1 : (view_all_books
          { db with books := db.books.filter (fun c => !(c.id == b.id)) }).Perm
          (db.books.filter (fun c => !(c.id == b.id))) :=
        List.perm_insertionSort titleLe _
      have h2 := filter_ne_id_perm_erase db.books hWF.2 b hb
      have h3 : (db.books.erase b).Perm ((view_all_books db).erase b) :=
        ((List.perm_insertionSort titleLe db.books).symm.erase b)
      exact (h1.trans h2).trans h3

/-- Claim C5 witness: removing id 1 from a concrete two-book catalog, and
removing the absent id 9. -/
theorem remove_book_spec_witness :
    WF { books := [{ id := 1, title := "A", author := "x",
                     publication_year := some 1990, genre := "Other",
                     read_status := true, added_date := "d" },
                   { id := 2, title := "B", author := "y",
                     publication_year := some 2001, genre := "Other",
                     read_status := false, added_date := "e" }],
         nextId := 3 } ∧
    (remove_book
        { books := [{ id := 1, title := "A", author := "x",
                      publication_year := some 1990, genre := "Other",
                      read_status := true, added_date := "d" },
                    { id := 2, title := "B", author := "y",
                      publication_year := some 2001, genre := "Other",
                      read_status := false, added_date := "e" }],
          nextId := 3 } 1).1 = some "A" ∧
    (∀ b ∈ ({ books := [{ id := 1, title := "A", author := "x",
                          publication_year := some 1990, genre := "Other",
                          read_status := true, added_date := "d" },
                        { id := 2, title := "B", author := "y",
                          publication_year := some 2001, genre := "Other",
                          read_status := false, added_date := "e" }],
              nextId := 3 } : DB).books, b.id ≠ 9) ∧
    remove_book
        { books := [{ id := 1, title := "A", author := "x",
                      publication_year := some 1990, genre := "Other",
                      read_status := true, added_date := "d" },
                    { id := 2, title := "B", author := "y",
                      publication_year := some 2001, genre := "Other",
                      read_status := false, added_date := "e" }],
          nextId := 3 } 9 =
      (none, { books := [{ id := 1, title := "A", author := "x",
                           publication_year := some 1990, genre := "Other",
                           read_status := true, added_date := "d" },
                         { id := 2, title := "B", author := "y",
                           publication_year := some 2001, genre := "Other",
                           read_status := false, added_date := "e" }],
               nextId := 3 }) := by
  refine ⟨⟨by decide, by decide⟩, ?_, by decide, ?_⟩
  · exact ((remove_book_spec
      { books := [{ id := 1, title := "A", author := "x",
                    publication_year := some 1990, genre := "Other",
                    read_status := true, added_date := "d" },
                  { id := 2, title := "B", author := "y",
                    publication_year := some 2001, genre := "Other",
                    read_status := false, added_date := "e" }],
        nextId := 3 } 1 ⟨by decide, by decide⟩).2 _
      (List.mem_cons_self _ _) rfl).1
  · exact (remove_book_spec
      { books := [{ id := 1, title := "A", author := "x",
                    publication_year := some 1990, genre := "Other",
                    read_status := true, added_date := "d" },
                  { id := 2, title := "B", author := "y",
                    publication_year := some 2001, genre := "Other",
                    read_status := false, added_date := "e" }],
        nextId := 3 } 9 ⟨by decide, by decide⟩).1 (by decide)

theorem setStatus_id (book_id : Nat) (s : Bool) (c : Book) :
    (setStatus book_id s c).id = c.id := by
  unfold setStatus
  split <;> rfl

theorem setStatus_of_ne (book_id : Nat) (s : Bool) (c : Book)
    (h : c.id ≠ book_id) : setStatus book_id s c = c := by
  unfold setStatus
  simp [h]

theorem setStatus_of_eq (book_id : Nat) (s : Bool) (c : Book)
    (h : c.id = book_id) : setStatus book_id s c = { c with read_status := s } := by
  unfold setStatus
  simp [h]

/-- Claim C6: toggling the read status of a present book flips its boolean
and persists it, and toggling twice restores the catalog exactly;
toggling an absent id reports not-found and changes nothing. -/
theorem update_read_status_involutive (db : DB) (book_id : Nat)
    (hnd : (db.books.map Book.id).Nodup) :
    ((∀ b ∈ db.books, b.id ≠ book_id) →
      update_read_status db book_id = (false, db)) ∧
    (∀ b ∈ db.books, b.id = book_id →
      (update_read_status db book_id).1 = true ∧
      { b with read_status := !b.read_status } ∈
        (update_read_status db book_id).2.books ∧
      update_read_status (update_read_status db book_id).2 book_id = (true, db)) := by
  constructor
  · intro h
    have hfind : db.books.find? (fun c => c.id == book_id) = none := by
      apply List.find?_eq_none.mpr
      intro x hx
      simp [h x hx]
    simp [update_read_status, hfind]
  · intro b hb hid
    subst hid
    have hfind : db.books.find? (fun c => c.id == b.id) = some b :=
      find?_id_eq db.books hnd hb
    have hstep : update_read_status db b.id =
        (true, { db with books := db.books.map (setStatus b.id (!b.read_status)) }) := by
      simp [update_read_status, hfind]
    have hcomp : ((fun c : Book => c.id == b.id) ∘ setStatus b.id (!b.read_status)) =
        (fun c : Book => c.id == b.id) := by
      funext c
      simp only [Function.comp_apply, setStatus_id]
    have hfind2 : (db.books.map (setStatus b.id (!b.read_status))).find?
        (fun c => c.id == b.id) = some (setStatus b.id (!b.read_status) b) := by
      rw [List.find?_map, hcomp, hfind]
      rfl
    have hfb : setStatus b.id (!b.read_status) b =
        { b with read_status := !b.read_status } :=
      setStatus_of_eq b.id (!b.read_status) b rfl
    refine ⟨by rw [hstep], ?_, ?_⟩
    · rw [hstep]
      exact hfb ▸ List.mem_map_of_mem _ hb
    · rw [hstep]
      have hstep2 : update_read_status
          { db with books := db.books.map (setStatus b.id (!b.read_status)) } b.id =
          (true,
           { db with
              books :=
                (db.books.map (setStatus b.id (!b.read_status))).map
                  (setStatus b.id b.read_status) }) := by
        rw [update_read_status]
        rw [hfind2, hfb]
        simp [Bool.not_not]
      rw [hstep2]
      have hback : (db.books.map (setStatus b.id (!b.read_status))).map
          (setStatus b.id b.read_status) = db.books := by
        rw [List.map_map]
        have hpt : ∀ c ∈ db.books,
            (setStatus b.id b.read_status ∘ setStatus b.id (!b.read_status)) c =
              id c := by
          intro c hc
          simp only [Function.comp_apply, id_eq]
          by_cases hcid : c.id = b.id
          · have hcb : c = b := mem_id_unique db.books hnd hc hb hcid
            subst hcb
            rw [setStatus_of_eq _ _ _ rfl]
            exact setStatus_of_eq _ _ _ rfl
          · rw [setStatus_of_ne _ _ _ hcid]
            exact setStatus_of_ne _ _ _ hcid
        rw [List.map_congr_left hpt, List.map_id]
      rw [hback]

/-- Claim C6 witness: toggling id 1 twice on a concrete catalog, and
toggling the absent id 9. -/
theorem update_read_status_involutive_witness :
    (([{ id := 1, title := "A", author := "x",
         publication_year := some 1990, genre := "Other",
         read_status := true, added_date := "d" }] : List Book).map Book.id).Nodup ∧
    (update_read_status
      { books := [{ id := 1, title := "A", author := "x",
                    publication_year := some 1990, genre := "Other",
                    read_status := true, added_date := "d" }],
        nextId := 2 } 1).1 = true ∧
    update_read_status
        (update_read_status
          { books := [{ id := 1, title := "A", author := "x",
                        publication_year := some 1990, genre := "Other",
                        read_status := true, added_date := "d" }],
            nextId := 2 } 1).2 1 =
      (true,
       { books := [{ id := 1, title := "A", author := "x",
                     publication_year := some 1990, genre := "Other",
                     read_status := true, added_date := "d" }],
         nextId := 2 }) ∧
    update_read_status
        { books := [{ id := 1, title := "A", author := "x",
                      publication_year := some 1990, genre := "Other",
                      read_status := true, added_date := "d" }],
          nextId := 2 } 9 =
      (false,
       { books := [{ id := 1, title := "A", author := "x",
                     publication_year := some 1990, genre := "Other",
                     read_status := true, added_date := "d" }],
         nextId := 2 }) := by
  refine ⟨by decide, ?_, ?_, ?_⟩
  · exact ((update_read_status_involutive
      { books := [{ id := 1, title := "A", author := "x",
                    publication_year := some 1990, genre := "Other",
                    read_status := true, added_date := "d" }],
        nextId := 2 } 1 (by decide)).2 _ (List.mem_cons_self _ _) rfl).1
  · exact ((update_read_status_involutive
      { books := [{ id := 1, title := "A", author := "x",
                    publication_year := some 1990, genre := "Other",
                    read_status := true, added_date := "d" }],
        nextId := 2 } 1 (by decide)).2 _ (List.mem_cons_self _ _) rfl).2.2
  · exact (update_read_status_involutive
      { books := [{ id := 1, title := "A", author := "x",
                    publication_year := some 1990, genre := "Other",
                    read_status := true, added_date := "d" }],
        nextId := 2 } 9 (by decide)).1 (by decide)

/-! ## The decade histogram -/

theorem tdiv_ten_eq_fdiv (y : Int) (h : 0 ≤ y) : Int.tdiv y 10 = Int.fdiv y 10 := by
  rw [Int.tdiv_eq_ediv h (by norm_num), Int.fdiv_eq_ediv _ (by norm_num)]

/-- For catalogs whose years are non-negative (the data model keeps them
in [1000, current year]), the sqlite truncating decade agrees pointwise
with the claim's floor decade. -/
theorem decadeOf_match (db : DB)
    (hy : ∀ b ∈ db.books, 0 ≤ b.publication_year.getD 0) (d : Int) :
    ∀ b ∈ db.books,
      (decadeOf b == some d) = true ↔
        (match b.publication_year with
          | some y => Int.fdiv y 10 * 10 == d
          | none => false) = true := by
  intro b hb
  cases hbp : b.publication_year with
  | none => simp [decadeOf, hbp]
  | some y =>
    have h0 : (0 : Int) ≤ y := by
      have := hy b hb
      rwa [hbp, Option.getD_some] at this
    simp [decadeOf, hbp, tdiv_ten_eq_fdiv y h0]

/-- Claim C9: on catalogs with non-negative years, the displayed decade
histogram lists its decades in strictly ascending order; every displayed
pair (d, c) counts exactly the books whose floored year-decade is d and is
positive; and every decade with at least one book is displayed (no
truncation).  Books with a NULL `publication_year` are excluded by
construction (they fall into the skipped NULL group and match no floored
decade). -/
theorem decade_histogram_spec (db : DB)
    (hy : ∀ b ∈ db.books, 0 ≤ b.publication_year.getD 0) :
    ((decadesShown db).map Prod.fst).Pairwise (fun d e => d < e) ∧
    (∀ d c, (d, c) ∈ decadesShown db → c = floorDecadeCount db d ∧ 0 < c) ∧
    (∀ d : Int, 0 < floorDecadeCount db d → ∃ c, (d, c) ∈ decadesShown db) := by
  have hkperm : (decadeKeys db).Perm (db.books.map decadeOf).dedup :=
    List.perm_insertionSort optLe _
  have hknodup : (decadeKeys db).Nodup :=
    hkperm.symm.nodup (List.nodup_dedup _)
  have hksorted : (decadeKeys db).Pairwise optLe :=
    List.sorted_insertionSort optLe _
  have hkstrict : (decadeKeys db).Pairwise (fun a b => optLe a b ∧ a ≠ b) :=
    hksorted.and hknodup
  refine ⟨?_, ?_, ?_⟩
  · apply List.pairwise_map.mpr
    apply List.pairwise_filterMap.mpr
    have hrows : (decadeRows db).Pairwise
        (fun p q => optLe p.1 q.1 ∧ p.1 ≠ q.1) := by
      apply List.pairwise_map.mpr
      exact hkstrict
    apply hrows.imp
    intro p q hpq x hx x' hx'
    obtain ⟨e, hpe, hxe⟩ := Option.map_eq_some'.mp hx
    obtain ⟨e', hpe', hxe'⟩ := Option.map_eq_some'.mp hx'
    subst hxe
    subst hxe'
    rw [hpe, hpe'] at hpq
    have hle : e ≤ e' := hpq.1
    have hne : e ≠ e' := by
      intro h
      exact hpq.2 (by rw [h])
    exact lt_of_le_of_ne hle hne
  · intro d c hdc
    obtain ⟨r, hr, hfr⟩ := List.mem_filterMap.mp hdc
    obtain ⟨e, hre, hpair⟩ := Option.map_eq_some'.mp hfr
    have hde : e = d := congrArg Prod.fst hpair
    subst hde
    have hc : r.2 = c := congrArg Prod.snd hpair
    obtain ⟨k, hk, hkr⟩ := List.mem_map.mp hr
    have hk1 : k = some e := by rw [← hre, ← hkr]
    subst hk1
    have hcnt : c = db.books.countP (fun b => decadeOf b == some e) := by
      rw [← hc, ← hkr]
    constructor
    · rw [hcnt]
      exact List.countP_congr (decadeOf_match db hy e)
    · rw [hcnt]
      apply List.countP_pos.mpr
      have hmem : some e ∈ db.books.map decadeOf :=
        List.mem_dedup.mp (hkperm.mem_iff.mp hk)
      obtain ⟨b, hb, hbe⟩ := List.mem_map.mp hmem
      exact ⟨b, hb, by simp [hbe]⟩
  · intro d hpos
    obtain ⟨b, hb, hbp⟩ := List.countP_pos.mp hpos
    have hbd : (decadeOf b == some d) = true :=
      (decadeOf_match db hy d b hb).mpr hbp
    have hbd' : decadeOf b = some d := by simpa using hbd
    have hmem : some d ∈ (db.books.map decadeOf).dedup :=
      List.mem_dedup.mpr (List.mem_map.mpr ⟨b, hb, hbd'⟩)
    have hkey : some d ∈ decadeKeys db := hkperm.mem_iff.mpr hmem
    refine ⟨db.books.countP (fun c => decadeOf c == some d), ?_⟩
    apply List.mem_filterMap.mpr
    refine ⟨(some d, db.books.countP (fun c => decadeOf c == some d)), ?_, rfl⟩
    exact List.mem_map.mpr ⟨some d, hkey, rfl⟩

/-- Claim C9 witness: a catalog with years 1965, 1972, 1999 and one NULL
year. -/
theorem decade_histogram_spec_witness :
    (∀ b ∈ ({ books := [{ id := 1, title := "A", author := "x",
                          publication_year := some 1965, genre := "Other",
                          read_status := true, added_date := "d" },
                        { id := 2, title := "B", author := "x",
                          publication_year := some 1972, genre := "Other",
                          read_status := false, added_date := "d" },
                        { id := 3, title := "C", author := "x",
                          publication_year := some 1999, genre := "Other",
                          read_status := false, added_date := "d" },
                        { id := 4, title := "D", author := "x",
                          publication_year := none, genre := "Other",
                          read_status := false, added_date := "d" }],
              nextId := 5 } : DB).books, 0 ≤ b.publication_year.getD 0) ∧
    (((decadesShown
        { books := [{ id := 1, title := "A", author := "x",
                      publication_year := some 1965, genre := "Other",
                      read_status := true, added_date := "d" },
                    { id := 2, title := "B", author := "x",
                      publication_year := some 1972, genre := "Other",
                      read_status := false, added_date := "d" },
                    { id := 3, title := "C", author := "x",
                      publication_year := some 1999, genre := "Other",
                      read_status := false, added_date := "d" },
                    { id := 4, title := "D", author := "x",
                      publication_year := none, genre := "Other",
                      read_status := false, added_date := "d" }],
          nextId := 5 }).map Prod.fst).Pairwise (fun d e => d < e)) ∧
    (∀ d c, (d, c) ∈ decadesShown
        { books := [{ id := 1, title := "A", author := "x",
                      publication_year := some 1965, genre := "Other",
                      read_status := true, added_date := "d" },
                    { id := 2, title := "B", author := "x",
                      publication_year := some 1972, genre := "Other",
                      read_status := false, added_date := "d" },
                    { id := 3, title := "C", author := "x",
                      publication_year := some 1999, genre := "Other",
                      read_status := false, added_date := "d" },
                    { id := 4, title := "D", author := "x",
                      publication_year := none, genre := "Other",
                      read_status := false, added_date := "d" }],
          nextId := 5 } →
      c = floorDecadeCount
        { books := [{ id := 1, title := "A", author := "x",
                      publication_year := some 1965, genre := "Other",
                      read_status := true, added_date := "d" },
                    { id := 2, title := "B", author := "x",
                      publication_year := some 1972, genre := "Other",
                      read_status := false, added_date := "d" },
                    { id := 3, title := "C", author := "x",
                      publication_year := some 1999, genre := "Other",
                      read_status := false, added_date := "d" },
                    { id := 4, title := "D", author := "x",
                      publication_year := none, genre := "Other",
                      read_status := false, added_date := "d" }],
          nextId := 5 } d ∧ 0 < c) :=
  ⟨by decide,
   (decade_histogram_spec
     { books := [{ id := 1, title := "A", author := "x",
                   publication_year := some 1965, genre := "Other",
                   read_status := true, added_date := "d" },
                 { id := 2, title := "B", author := "x",
                   publication_year := some 1972, genre := "Other",
                   read_status := false, added_date := "d" },
                 { id := 3, title := "C", author := "x",
                   publication_year := some 1999, genre := "Other",
                   read_status := false, added_date := "d" },
                 { id := 4, title := "D", author := "x",
                   publication_year := none, genre := "Other",
                   read_status := false, added_date := "d" }],
       nextId := 5 } (by decide)).1,
   (decade_histogram_spec
     { books := [{ id := 1, title := "A", author := "x",
                   publication_year := some 1965, genre := "Other",
                   read_status := true, added_date := "d" },
                 { id := 2, title := "B", author := "x",
                   publication_year := some 1972, genre := "Other",
                   read_status := false, added_date := "d" },
                 { id := 3, title := "C", author := "x",
                   publication_year := some 1999, genre := "Other",
                   read_status := false, added_date := "d" },
                 { id := 4, title := "D", author := "x",
                   publication_year := none, genre := "Other",
                   read_status := false, added_date := "d" }],
       nextId := 5 } (by decide)).2.1⟩

/-! ## Non-empty title/author at creation -/

/-- Claim C10 fails on the code: the core layer performs no emptiness
check, so importing a record whose `title` value is the empty string
succeeds and creates a book with an empty title. -/
theorem import_empty_title_counterexample :
    import_library { books := [], nextId := 1 }
        (some [{ id_field := some 7, title_field := some "",
                 author_field := some "a",
                 publication_year_field := some (some 2000),
                 genre_field := some "Other", read_status_field := some true,
                 added_date_field := some "d" }]) "y" =
      (true,
       { books := [{ id := 1, title := "", author := "a",
                     publication_year := some 2000, genre := "Other",
                     read_status := true, added_date := "d" }],
         nextId := 2 }) ∧
    ∃ b ∈ ({ books := [{ id := 1, title := "", author := "a",
                         publication_year := some 2000, genre := "Other",
                         read_status := true, added_date := "d" }],
             nextId := 2 } : DB).books, b.title = "" := by
  constructor
  · rfl
  · decide

/-- Non-emptiness of titles and authors is preserved by the insert loop
when every record carries non-empty `title` and `author` values. -/
theorem insertAll_nonempty_fields :
    ∀ (recs : List BookRecord) (db0 : DB),
      (∀ b ∈ db0.books, b.title ≠ "" ∧ b.author ≠ "") →
      (∀ r ∈ recs, (∀ t, r.title_field = some t → t ≠ "") ∧
        (∀ a, r.author_field = some a → a ≠ "")) →
      ∀ b ∈ (insertAll db0 recs).2.books, b.title ≠ "" ∧ b.author ≠ "" := by
  intro recs
  induction recs with
  | nil => intro db0 hbase _ b hb; exact hbase b hb
  | cons r rs ih =>
    intro db0 hbase hrec
    obtain ⟨ri, rt, ra, ry, rg, rst, rd⟩ := r
    cases rt with
    | none => exact hbase
    | some t =>
      cases ra with
      | none => exact hbase
      | some a =>
        cases ry with
        | none => exact hbase
        | some y =>
          cases rg with
          | none => exact hbase
          | some g =>
            cases rst with
            | none => exact hbase
            | some st =>
              cases rd with
              | none => exact hbase
              | some d =>
                apply ih
                · intro b hb
                  rcases List.mem_append.mp hb with hold | hnew
                  · exact hbase b hold
                  · rcases List.mem_singleton.mp hnew with rfl
                    have hr := hrec _ (List.mem_cons_self _ _)
                    exact ⟨hr.1 t rfl, hr.2 a rfl⟩
                · intro r' hr'
                  exact hrec r' (List.mem_cons_of_mem _ hr')

/-- Claim C10 as amended: the add path creates exactly one book carrying
the given title and author, so its fields are non-empty whenever the
caller's inputs are (the interactive shell rejects empty input before
calling `add_book`); the other core operations, import included, preserve
non-emptiness only when every imported record's `title` and `author`
values are themselves non-empty — the core layer checks nothing. -/
theorem core_creation_nonempty (db : DB)
    (hdb : ∀ b ∈ db.books, b.title ≠ "" ∧ b.author ≠ "") :
    (∀ t a y g r now, t ≠ "" → a ≠ "" →
      ∀ b ∈ (add_book db t a y g r now).2.books, b.title ≠ "" ∧ b.author ≠ "") ∧
    (∀ book_id, ∀ b ∈ (remove_book db book_id).2.books,
      b.title ≠ "" ∧ b.author ≠ "") ∧
    (∀ book_id, ∀ b ∈ (update_read_status db book_id).2.books,
      b.title ≠ "" ∧ b.author ≠ "") ∧
    (∀ file confirm,
      (∀ recs, file = some recs → ∀ r ∈ recs,
        (∀ t, r.title_field = some t → t ≠ "") ∧
        (∀ a, r.author_field = some a → a ≠ "")) →
      ∀ b ∈ (import_library db file confirm).2.books,
        b.title ≠ "" ∧ b.author ≠ "") := by
  refine ⟨?_, ?_, ?_, ?_⟩
  · intro t a y g r now ht ha b hb
    rcases List.mem_append.mp hb with hold | hnew
    · exact hdb b hold
    · rcases List.mem_singleton.mp hnew with rfl
      exact ⟨ht, ha⟩
  · intro book_id b hb
    cases hf : db.books.find? (fun c => c.id == book_id) with
    | none =>
      rw [remove_book, hf] at hb
      exact hdb b hb
    | some c =>
      rw [remove_book, hf] at hb
      exact hdb b (List.mem_filter.mp hb).1
  · intro book_id b hb
    cases hf : db.books.find? (fun c => c.id == book_id) with
    | none =>
      rw [update_read_status, hf] at hb
      exact hdb b hb
    | some c =>
      rw [update_read_status, hf] at hb
      obtain ⟨c', hc', hcb⟩ := List.mem_map.mp hb
      have hpres : (setStatus book_id (!c.read_status) c').title = c'.title ∧
          (setStatus book_id (!c.read_status) c').author = c'.author := by
        unfold setStatus
        split <;> exact ⟨rfl, rfl⟩
      rw [← hcb]
      rw [hpres.1, hpres.2]
      exact hdb c' hc'
  · intro file confirm hrecs b hb
    cases file with
    | none => exact hdb b hb
    | some recs =>
      by_cases hempty : recs.isEmpty
      · rw [import_library] at hb
        simp only [hempty, if_true] at hb
        exact hdb b hb
      · by_cases haff : isAffirmative confirm
        · have hb' : b ∈ (insertAll { db with books := [] } recs).2.books := by
            rw [import_library] at hb
            simp only [hempty, haff, Bool.not_true, if_false,
              Bool.false_eq_true] at hb
            exact hb
          exact insertAll_nonempty_fields recs { db with books := [] }
            (by intro c hc; cases hc) (hrecs recs rfl) b hb'
        · rw [import_library] at hb
          have haff' : isAffirmative confirm = false := by
            revert haff; cases isAffirmative confirm <;> simp
          simp only [hempty, haff', Bool.not_false, if_true,
            Bool.false_eq_true, if_false] at hb
          exact hdb b hb

/-- Claim C10 (amended) witness: preservation on a concrete catalog and a
concrete well-formed import file. -/
theorem core_creation_nonempty_witness :
    (∀ b ∈ ({ books := [{ id := 1, title := "A", author := "x",
                          publication_year := some 1990, genre := "Other",
                          read_status := true, added_date := "d" }],
              nextId := 2 } : DB).books, b.title ≠ "" ∧ b.author ≠ "") ∧
    (∀ b ∈ (import_library
        { books := [{ id := 1, title := "A", author := "x",
                      publication_year := some 1990, genre := "Other",
                      read_status := true, added_date := "d" }],
          nextId := 2 }
        (some [{ id_field := some 7, title_field := some "B",
                 author_field := some "y",
                 publication_year_field := some (some 2000),
                 genre_field := some "Other", read_status_field := some false,
                 added_date_field := some "e" }]) "y").2.books,
      b.title ≠ "" ∧ b.author ≠ "") := by
  refine ⟨by decide, ?_⟩
  exact (core_creation_nonempty
    { books := [{ id := 1, title := "A", author := "x",
                  publication_year := some 1990, genre := "Other",
                  read_status := true, added_date := "d" }],
      nextId := 2 } (by decide)).2.2.2
    (some [{ id_field := some 7, title_field := some "B",
             author_field := some "y",
             publication_year_field := some (some 2000),
             genre_field := some "Other", read_status_field := some false,
             added_date_field := some "e" }]) "y"
    (by
      intro recs hrecs r hr
      cases hrecs
      rcases List.mem_singleton.mp hr with rfl
      constructor
      · intro t ht
        cases ht
        decide
      · intro a ha
        cases ha
        decide)

/-! ## Search: LIKE semantics versus substring containment -/

theorem likeMatch_nil (s : List Char) : likeMatch [] s = s.isEmpty := rfl

theorem likeMatch_cons (q : Char) (ps s : List Char) :
    likeMatch (q :: ps) s =
      (if q = '%' then starScan (likeMatch ps) s
       else
        match s with
        | [] => false
        | c :: s2 =>
          (if q = '_' then true else foldChar q == foldChar c) &&
            likeMatch ps s2) := rfl

/-- A `%` scan succeeds exactly when some split lets the continuation
match the suffix. -/
theorem starScan_iff (f : List Char → Bool) :
    ∀ s, starScan f s = true ↔ ∃ s₁ s₂, s = s₁ ++ s₂ ∧ f s₂ = true := by
  intro s
  induction s with
  | nil =>
    constructor
    · intro h
      exact ⟨[], [], rfl, h⟩
    · rintro ⟨s₁, s₂, heq, hf⟩
      obtain ⟨h1, h2⟩ := List.append_eq_nil.mp heq.symm
      subst h2
      exact hf
  | cons c s2 ih =>
    have hdef : starScan f (c :: s2) = (f (c :: s2) || starScan f s2) := rfl
    rw [hdef]
    constructor
    · intro h
      have h' : f (c :: s2) = true ∨ starScan f s2 = true := by
        simpa using h
      rcases h' with h | h
      · exact ⟨[], c :: s2, rfl, h⟩
      · obtain ⟨s₁, s₂, heq, hf⟩ := ih.mp h
        exact ⟨c :: s₁, s₂, by rw [heq]; rfl, hf⟩
    · rintro ⟨s₁, s₂, heq, hf⟩
      have hgoal : f (c :: s2) = true ∨ starScan f s2 = true → (f (c :: s2) || starScan f s2) = true := by
        rintro (h | h) <;> simp [h]
      apply hgoal
      cases s₁ with
      | nil =>
        left
        simp only [List.nil_append] at heq
        rw [← heq] at hf
        exact hf
      | cons d s₁' =>
        right
        injection heq with hd hrest
        exact ih.mpr ⟨s₁', s₂, hrest, hf⟩

/-- A wildcard-free pattern segment followed by `%` matches exactly the
strings opening with a case-insensitive copy of the segment. -/
theorem likeMatch_lit :
    ∀ term : List Char, (∀ q ∈ term, q ≠ '%' ∧ q ≠ '_') →
      ∀ s, likeMatch (term ++ ['%']) s = true ↔
        ∃ s₁ s₂, s = s₁ ++ s₂ ∧ s₁.map foldChar = term.map foldChar := by
  intro term
  induction term with
  | nil =>
    intro _ s
    constructor
    · intro _
      exact ⟨[], s, rfl, rfl⟩
    · intro _
      show likeMatch ('%' :: []) s = true
      rw [likeMatch_cons, if_pos rfl]
      apply (starScan_iff _ s).mpr
      exact ⟨s, [], (List.append_nil s).symm, rfl⟩
  | cons q term' ih =>
    intro hq s
    have hq1 : q ≠ '%' := (hq q (List.mem_cons_self _ _)).1
    have hq2 : q ≠ '_' := (hq q (List.mem_cons_self _ _)).2
    have ih' := ih (fun p hp => hq p (List.mem_cons_of_mem _ hp))
    rw [show (q :: term') ++ ['%'] = q :: (term' ++ ['%']) from rfl,
      likeMatch_cons, if_neg hq1]
    cases s with
    | nil =>
      constructor
      · intro h
        simp at h
      · rintro ⟨s₁, s₂, heq, hmap⟩
        obtain ⟨h1, _⟩ := List.append_eq_nil.mp heq.symm
        subst h1
        simp at hmap
    | cons c s2 =>
      show ((if q = '_' then true else foldChar q == foldChar c) &&
          likeMatch (term' ++ ['%']) s2) = true ↔ _
      rw [if_neg hq2]
      constructor
      · intro h
        rw [Bool.and_eq_true] at h
        obtain ⟨h1, h2⟩ := h
        have h1' : foldChar q = foldChar c := by simpa using h1
        obtain ⟨s₁, s₂, heq, hmap⟩ := (ih' s2).mp h2
        refine ⟨c :: s₁, s₂, by rw [heq]; rfl, ?_⟩
        simp [hmap, h1'.symm]
      · rintro ⟨s₁, s₂, heq, hmap⟩
        cases s₁ with
        | nil => simp at hmap
        | cons d s₁' =>
          injection heq with hd hrest
          subst hd
          have hmap' : foldChar c :: s₁'.map foldChar =
              foldChar q :: term'.map foldChar := by simpa using hmap
          injection hmap' with hfd hfrest
          rw [Bool.and_eq_true]
          constructor
          · simp [hfd]
          · exact (ih' s2).mpr ⟨s₁', s₂, hrest, hfrest⟩

/-- The bound pattern `%term%` with a wildcard-free term matches exactly
the strings containing the term up to ASCII case. -/
theorem likeMatch_full (term : List Char)
    (hterm : ∀ q ∈ term, q ≠ '%' ∧ q ≠ '_') (s : List Char) :
    likeMatch ('%' :: term ++ ['%']) s = true ↔
      ∃ pre mid post, s = pre ++ mid ++ post ∧
        mid.map foldChar = term.map foldChar := by
  rw [show '%' :: term ++ ['%'] = '%' :: (term ++ ['%']) from rfl,
    likeMatch_cons, if_pos rfl]
  constructor
  · intro h
    obtain ⟨pre, rest, heq, hrest⟩ := (starScan_iff _ s).mp h
    obtain ⟨mid, post, heq2, hmap⟩ := (likeMatch_lit term hterm rest).mp hrest
    exact ⟨pre, mid, post, by rw [heq, heq2, List.append_assoc], hmap⟩
  · rintro ⟨pre, mid, post, heq, hmap⟩
    apply (starScan_iff _ s).mpr
    refine ⟨pre, mid ++ post, by rw [heq, List.append_assoc], ?_⟩
    exact (likeMatch_lit term hterm _).mpr ⟨mid, post, rfl, hmap⟩

/-- Claim C7 fails as stated: the term is spliced into a `LIKE` pattern,
so its `%` and `_` characters act as wildcards.  Searching the title
term "_" on a catalog whose single book is titled "x" returns that book,
although "x" does not contain "_" as a substring under either case
convention. -/
theorem search_books_wildcard_counterexample :
    search_books
        { books := [{ id := 1, title := "x", author := "a",
                      publication_year := some 2000, genre := "Other",
                      read_status := false, added_date := "d" }],
          nextId := 2 } "_" SearchField.title =
      [{ id := 1, title := "x", author := "a",
         publication_year := some 2000, genre := "Other",
         read_status := false, added_date := "d" }] ∧
    ¬ containsCI "_" "x" := by
  constructor
  · decide
  · rintro ⟨pre, mid, post, heq, hmap⟩
    cases mid with
    | nil => simp at hmap
    | cons m mid' =>
      cases mid' with
      | cons _ _ => simp at hmap
      | nil =>
        have hm : foldChar m = foldChar '_' := by simpa using hmap
        cases pre with
        | cons p pre' =>
          have hx : ("x".data : List Char) = ['x'] := rfl
          rw [hx] at heq
          injection heq with hp hrest
          exact absurd hrest.symm (by simp)
        | nil =>
          have hx : ("x".data : List Char) = ['x'] := rfl
          rw [hx] at heq
          simp only [List.nil_append] at heq
          injection heq with hm' hrest
          rw [← hm'] at hm
          exact absurd hm (by decide)

/-- Claim C7 as amended: for terms free of the `LIKE` wildcards `%` and
`_`, `search_books` returns exactly the books whose selected field
(title, author or genre — that field only) contains the term as a
substring up to ASCII case, each occurrence as often as it occurs in the
catalog, sorted by title ascending; a term matching nothing simply gives
the empty list.  Terms containing `%` or `_` are instead interpreted as
`LIKE` patterns. -/
theorem search_books_spec (db : DB) (term : String) (f : SearchField)
    (hterm : ∀ q ∈ term.data, q ≠ '%' ∧ q ≠ '_') :
    (∀ b, b ∈ search_books db term f ↔
      b ∈ db.books ∧ containsCI term (fieldValue f b)) ∧
    (∀ b, containsCI term (fieldValue f b) →
      (search_books db term f).count b = db.books.count b) ∧
    (search_books db term f).Pairwise titleLe := by
  have hlike : ∀ b : Book,
      (likeMatch ('%' :: term.data ++ ['%']) (fieldValue f b).data = true) ↔
        containsCI term (fieldValue f b) :=
    fun b => likeMatch_full term.data hterm (fieldValue f b).data
  refine ⟨?_, ?_, ?_⟩
  · intro b
    constructor
    · intro hb
      have hb' := (List.perm_insertionSort titleLe _).mem_iff.mp hb
      obtain ⟨hmem, hp⟩ := List.mem_filter.mp hb'
      exact ⟨hmem, (hlike b).mp hp⟩
    · rintro ⟨hmem, hc⟩
      apply (List.perm_insertionSort titleLe _).symm.mem_iff.mp
      exact List.mem_filter.mpr ⟨hmem, (hlike b).mpr hc⟩
  · intro b hc
    have hcnt : (search_books db term f).count b =
        (db.books.filter (fun c =>
          likeMatch ('%' :: term.data ++ ['%']) (fieldValue f c).data)).count b :=
      (List.perm_insertionSort titleLe _).count_eq b
    rw [hcnt]
    exact List.count_filter ((hlike b).mpr hc)
  · exact List.sorted_insertionSort titleLe _

/-- Claim C7 witness: searching the wildcard-free term "un" by title on a
concrete two-book catalog. -/
theorem search_books_spec_witness :
    (∀ q ∈ ("un" : String).data, q ≠ '%' ∧ q ≠ '_') ∧
    ((∀ b, b ∈ search_books
        { books := [{ id := 1, title := "Dune", author := "Herbert",
                      publication_year := some 1965, genre := "Science Fiction",
                      read_status := false, added_date := "d" },
                    { id := 2, title := "Emma", author := "Austen",
                      publication_year := some 1815, genre := "Fiction",
                      read_status := true, added_date := "e" }],
          nextId := 3 } "un" SearchField.title ↔
      b ∈ ({ books := [{ id := 1, title := "Dune", author := "Herbert",
                         publication_year := some 1965, genre := "Science Fiction",
                         read_status := false, added_date := "d" },
                       { id := 2, title := "Emma", author := "Austen",
                         publication_year := some 1815, genre := "Fiction",
                         read_status := true, added_date := "e" }],
             nextId := 3 } : DB).books ∧
        containsCI "un" (fieldValue SearchField.title b)) ∧
    (search_books
        { books := [{ id := 1, title := "Dune", author := "Herbert",
                      publication_year := some 1965, genre := "Science Fiction",
                      read_status := false, added_date := "d" },
                    { id := 2, title := "Emma", author := "Austen",
                      publication_year := some 1815, genre := "Fiction",
                      read_status := true, added_date := "e" }],
          nextId := 3 } "un" SearchField.title).Pairwise titleLe) :=
  ⟨by decide,
   ⟨(search_books_spec
      { books := [{ id := 1, title := "Dune", author := "Herbert",
                    publication_year := some 1965, genre := "Science Fiction",
                    read_status := false, added_date := "d" },
                  { id := 2, title := "Emma", author := "Austen",
                    publication_year := some 1815, genre := "Fiction",
                    read_status := true, added_date := "e" }],
        nextId := 3 } "un" SearchField.title (by decide)).1,
    (search_books_spec
      { books := [{ id := 1, title := "Dune", author := "Herbert",
                    publication_year := some 1965, genre := "Science Fiction",
                    read_status := false, added_date := "d" },
                  { id := 2, title := "Emma", author := "Austen",
                    publication_year := some 1815, genre := "Fiction",
                    read_status := true, added_date := "e" }],
        nextId := 3 } "un" SearchField.title (by decide)).2.2⟩⟩

end LibraryModel

